import Mathlib

/-!
Shallow embedding of `tinyrpc/protocols/msgpackrpc.py` (MSGPACK-RPC codec).

The underlying binary pack/unpack primitive (the `msgpack` library) is an
external dependency of the repository; we model its *output* as a `Value`
(the Python values `msgpack.unpackb(data, raw=False)` can return) and the
decode entry points take the unpack outcome directly: `none` models the
unpack primitive raising, `some v` models it returning the decoded value
`v`.  (Floating-point values and maps, which no claim touches, are not
modelled.)  Python's dynamic semantics are embedded explicitly: `len(x)`
is partial (raises `TypeError` on unsized values), `isinstance(x, int)`
is true for `bool` values, truthiness treats `0`/`None`/`""`/`[]` as
false, and exceptions are modelled with `Except`.
-/

/-- Values produced by `msgpack.unpackb(data, raw=False)`: `None`, `bool`,
`int`, `str`, `bytes` and `list` (arrays decode to Python lists). -/
inductive Value where
  | nil
  | bool (b : Bool)
  | int (n : Int)
  | str (s : String)
  | bin (bs : List Nat)
  | list (vs : List Value)

/-- Python `x is None`. -/
def Value.isNil : Value → Bool
  | .nil => true
  | _ => false

/-- Python `isinstance(x, list)`. -/
def Value.isList : Value → Bool
  | .list _ => true
  | _ => false

/-- Python `isinstance(x, six.string_types)`. -/
def Value.isStr : Value → Bool
  | .str _ => true
  | _ => false

/-- Python `isinstance(x, int)`.  Note that Python booleans are instances
of `int`, so `isinstance(True, int)` is true. -/
def Value.pyIsInt : Value → Bool
  | .int _ => true
  | .bool _ => true
  | _ => false

/-- Python equality `x == n` against an integer literal `n`.  Booleans
compare equal to `0`/`1`; every other non-int value compares unequal. -/
def Value.pyEqInt : Value → Int → Bool
  | .int m, n => m == n
  | .bool b, n => (if b then (1 : Int) else 0) == n
  | _, _ => false

/-- Python `int(x)` for values satisfying `isinstance(x, int)` (junk value
`0` elsewhere; every use site is guarded by `pyIsInt`). -/
def Value.pyToInt : Value → Int
  | .int n => n
  | .bool b => if b then 1 else 0
  | _ => 0

/-- The underlying string of a `str` value (junk `""` elsewhere; every use
site is guarded by `isStr`). -/
def Value.strVal : Value → String
  | .str s => s
  | _ => ""

/-- Python `len(x)`: defined for sized values (`str`, `bytes`, `list`),
raises `TypeError` (modelled as `none`) on `None`, `bool` and `int`. -/
def Value.pyLen : Value → Option Nat
  | .nil => none
  | .bool _ => none
  | .int _ => none
  | .str s => some s.length
  | .bin bs => some bs.length
  | .list vs => some vs.length

/-- Python subscript `x[i]` for sized values with `i` in range (indexing a
`bytes` yields an `int`, indexing a `str` yields a one-character `str`).
Out-of-range or unsized access yields junk `nil`; every use site is
guarded by a `pyLen` check. -/
def Value.pyIndex : Value → Nat → Value
  | .str s, i => .str (String.mk [s.toList.getD i ' '])
  | .bin bs, i => .int (Int.ofNat (bs.getD i 0))
  | .list vs, i => vs.getD i Value.nil
  | _, _ => Value.nil

/-- Python truthiness `bool(x)`. -/
def Value.pyTruthy : Value → Bool
  | .nil => false
  | .bool b => b
  | .int n => n != 0
  | .str s => !s.isEmpty
  | .bin bs => !bs.isEmpty
  | .list vs => !vs.isEmpty

/-- Truthiness of an optional value (an attribute that may be unset /
`None`). -/
def pyTruthyOpt : Option Value → Bool
  | none => false
  | some v => v.pyTruthy

/-- An exception of the `FixedErrorMessageMixin` family
(`MSGPACKRPCParseError`, `MSGPACKRPCInvalidRequestError`,
`MSGPACKRPCMethodNotFoundError`, `MSGPACKRPCInvalidParamsError`, ...):
a numeric protocol error code, a message (the class default unless an
explicit message was passed to the constructor), and the `request_id`
keyword argument (`nil` when absent, mirroring the Python default
`None`). -/
structure FixedError where
  msgpackrpc_error_code : Int
  message : String
  request_id : Value

/-- Exceptions that can escape the codec: the typed protocol errors
(`FixedErrorMessageMixin` subclasses), `InvalidReplyError`, and raw
Python `TypeError` (e.g. `len()` applied to an unsized value). -/
inductive PyExc where
  | protocolError (e : FixedError)
  | invalidReply (msg : String)
  | typeError (msg : String)

/-- Whether a decode outcome is a raised `InvalidReplyError`. -/
def isInvalidReplyOutcome {α : Type} : Except PyExc α → Bool
  | .error (.invalidReply _) => true
  | _ => false

/-- The response model: `MSGPACKRPCSuccessResponse` (carrying `result`)
or `MSGPACKRPCErrorResponse` (carrying `error` and the optional numeric
`_msgpackrpc_error_code`).  `unique_id` is kept as a raw `Value` since
the Python attribute can hold `None`, an integer, or (see
`_parse_notification`) even a string. -/
inductive RPCResponse where
  | success (unique_id : Value) (result : Value)
  | errorResponse (unique_id : Value) (error : Value) (code : Option Int)

/-- The `unique_id` attribute of a response. -/
def RPCResponse.unique_id : RPCResponse → Value
  | .success uid _ => uid
  | .errorResponse uid _ _ => uid

/-- `FixedErrorMessageMixin.error_respond`: builds an
`MSGPACKRPCErrorResponse` whose `error` is the exception's message,
whose `unique_id` is the stashed `request_id`, and whose code is the
class's `msgpackrpc_error_code`. -/
def FixedError.error_respond (e : FixedError) : RPCResponse :=
  .errorResponse e.request_id (.str e.message) (some e.msgpackrpc_error_code)

/-- `MSGPACKRPCRequest`: `one_way` flag, optional correlation id
(`None` until assigned; held as a raw `Value` since `parse_request`
stores the wire element), method name and positional arguments (the
`args` attribute is a list, `none` modelling it being set to `None`). -/
structure MSGPACKRPCRequest where
  one_way : Bool
  unique_id : Option Value
  method : String
  args : Option (List Value)

/-- The argument passed to `MSGPACKRPCRequest.error_respond`
(`Union[Exception, str]`), split by the `hasattr`/`isinstance` chain of
`_get_code_and_message`: an exception carrying a `msgpackrpc_error_code`
attribute, a bare `InvalidRequestError`, a bare `MethodNotFoundError`,
any other exception, or a plain string. -/
inductive ErrArg where
  | excWithCode (e : FixedError)
  | excInvalidRequest (msg : String)
  | excMethodNotFound (msg : String)
  | excOther (msg : String)
  | strMessage (s : String)

/-- `_get_code_and_message`: maps an application error to a wire code and
message.  Errors with a native code keep code and message verbatim;
abstract `InvalidRequestError` / `MethodNotFoundError` map to their fixed
code and default message; anything else maps to server error `-32000`
with the message propagated. -/
def _get_code_and_message : ErrArg → Int × String
  | .excWithCode e => (e.msgpackrpc_error_code, e.message)
  | .excInvalidRequest _ => (-32600, "Invalid request")
  | .excMethodNotFound _ => (-32601, "Method not found")
  | .excOther msg => (-32000, msg)
  | .strMessage s => (-32000, s)

/-- `MSGPACKRPCRequest.error_respond`: returns `None` when the request's
`unique_id` is falsy (Python `if not self.unique_id`, so `None` and `0`
both suppress the response); otherwise builds an error response whose id
is `None` if `one_way` else the request id. -/
def MSGPACKRPCRequest.error_respond (r : MSGPACKRPCRequest) (e : ErrArg) :
    Option RPCResponse :=
  if !(pyTruthyOpt r.unique_id) then none
  else
    let cm := _get_code_and_message e
    some (.errorResponse (if r.one_way then Value.nil else r.unique_id.getD Value.nil)
      (.str cm.2) (some cm.1))

/-- `MSGPACKRPCRequest.respond`: returns `None` when the request is
one-way or has no id; otherwise a success response with the same id. -/
def MSGPACKRPCRequest.respond (r : MSGPACKRPCRequest) (result : Value) :
    Option RPCResponse :=
  if r.one_way || r.unique_id.isNone then none
  else some (.success (r.unique_id.getD Value.nil) result)

/-- `MSGPACKRPCRequest._to_list`: the wire array that `serialize` packs —
`[2, method, args]` when one-way or id-less, else `[0, id, method, args]`;
`args` defaults to the empty list when the attribute is `None`. -/
def MSGPACKRPCRequest._to_list (r : MSGPACKRPCRequest) : Value :=
  if r.one_way || r.unique_id.isNone then
    .list [.int 2, .str r.method, .list (r.args.getD [])]
  else
    .list [.int 0, r.unique_id.getD Value.nil, .str r.method, .list (r.args.getD [])]

/-- `MSGPACKRPCProtocol` instance state: the `_id_counter` attribute
(initialised to `0` by the constructor). -/
structure MSGPACKRPCProtocol where
  _id_counter : Int

/-- `MSGPACKRPCProtocol._get_unique_id`: increments the counter and
returns its new value (explicit state passing for the mutation). -/
def MSGPACKRPCProtocol._get_unique_id (p : MSGPACKRPCProtocol) :
    Int × MSGPACKRPCProtocol :=
  (p._id_counter + 1, ⟨p._id_counter + 1⟩)

/-- `MSGPACKRPCProtocol.create_request`: raises
`MSGPACKRPCInvalidRequestError` when `kwargs` is truthy (non-empty);
otherwise builds a request, assigning a fresh id only when not one-way,
and copying `args` (empty list when `None`). -/
def MSGPACKRPCProtocol.create_request (p : MSGPACKRPCProtocol)
    (method : String) (args : Option (List Value))
    (kwargs : List (String × Value)) (one_way : Bool) :
    Except PyExc (MSGPACKRPCRequest × MSGPACKRPCProtocol) :=
  if !kwargs.isEmpty then
    .error (.protocolError ⟨-32600, "Does not support kwargs", Value.nil⟩)
  else
    let idp : Option Value × MSGPACKRPCProtocol :=
      if one_way then (none, p)
      else
        let g := p._get_unique_id
        (some (Value.int g.1), g.2)
    .ok (⟨one_way, idp.1, method, some (args.getD [])⟩, idp.2)

/-- `MSGPACKRPCProtocol.parse_reply`: client-side decode of a reply.  The
argument is the outcome of `msgpack.unpackb(data, raw=False)` (`none` =
unpack raised, wrapped into `InvalidReplyError`).  The decoded value then
goes through `len(rep) != 4` — which, like in the Python source, is
applied *before* any type check and so raises a raw `TypeError` when the
decoded value is unsized — then the tag / id / error-vs-result checks,
and finally the error- or success-response construction. -/
def MSGPACKRPCProtocol.parse_reply (u : Option Value) :
    Except PyExc RPCResponse :=
  match u with
  | none => .error (.invalidReply "unpack failed")
  | some rep =>
    match rep.pyLen with
    | none => .error (.typeError "object has no len()")
    | some n =>
      if n != 4 then
        .error (.invalidReply "MSGPACKRPC spec requires reply of length 4")
      else
        let r0 := rep.pyIndex 0
        let r1 := rep.pyIndex 1
        let r2 := rep.pyIndex 2
        let r3 := rep.pyIndex 3
        if !(r0.pyEqInt 1) then
          .error (.invalidReply "Invalid MSGPACK message type")
        else if !r1.pyIsInt then
          .error (.invalidReply "Invalid or missing message ID in response")
        else if !r2.isNil && !r3.isNil then
          .error (.invalidReply "Reply must contain only one of result and error.")
        else if !r2.isNil then
          let ec : Value × Option Int :=
            match r2 with
            | .list l =>
              if l.length == 2 then
                let code := l.getD 0 Value.nil
                let message := l.getD 1 Value.nil
                if code.pyIsInt && message.isStr then
                  (.str message.strVal, some code.pyToInt)
                else (r2, none)
              else (r2, none)
            | _ => (r2, none)
          .ok (.errorResponse r1 ec.1 ec.2)
        else
          .ok (.success r1 r3)

/-- `MSGPACKRPCProtocol._parse_request`: validates the tail of a
4-element call array `[0, id, method, params]` (the caller has already
checked the tag, the id's type and the length): method must be a string,
params must be a list, and either failure carries `request_id = req[1]`
so an error reply can still be correlated. -/
def MSGPACKRPCProtocol._parse_request (items : List Value) :
    Except PyExc MSGPACKRPCRequest :=
  let m := items.getD 2 Value.nil
  let rid := items.getD 1 Value.nil
  if !m.isStr then
    .error (.protocolError ⟨-32600, "Invalid request", rid⟩)
  else
    match items.getD 3 Value.nil with
    | .list ps => .ok ⟨false, some rid, m.strVal, some ps⟩
    | _ => .error (.protocolError ⟨-32602, "Invalid params", rid⟩)

/-- `MSGPACKRPCProtocol._parse_notification`: validates the tail of a
3-element notification array `[2, method, params]`.  Note the params
failure passes `request_id=req[1]` — which, in a notification, is the
*method name*, faithfully reproduced here. -/
def MSGPACKRPCProtocol._parse_notification (items : List Value) :
    Except PyExc MSGPACKRPCRequest :=
  let m := items.getD 1 Value.nil
  if !m.isStr then
    .error (.protocolError ⟨-32600, "Invalid request", Value.nil⟩)
  else
    match items.getD 2 Value.nil with
    | .list ps => .ok ⟨true, none, m.strVal, some ps⟩
    | _ => .error (.protocolError ⟨-32602, "Invalid params", m⟩)

/-- `MSGPACKRPCProtocol.parse_request`: server-side decode of a request.
The argument is the outcome of `msgpack.unpackb(data, raw=False)`
(`none` = unpack raised, turned into `MSGPACKRPCParseError`).  The
decoded value must be a list of length at least 2; the tag (`req[0]`,
compared with Python `==`) selects the call or notification path. -/
def MSGPACKRPCProtocol.parse_request (u : Option Value) :
    Except PyExc MSGPACKRPCRequest :=
  match u with
  | none => .error (.protocolError ⟨-32700, "Parse error", Value.nil⟩)
  | some req =>
    match req with
    | .list items =>
      if items.length < 2 then
        .error (.protocolError ⟨-32600, "Invalid request", Value.nil⟩)
      else if (items.getD 0 Value.nil).pyEqInt 0 then
        let request_id := items.getD 1 Value.nil
        if !request_id.pyIsInt then
          .error (.protocolError ⟨-32600, "Invalid request", Value.nil⟩)
        else if items.length == 4 then
          MSGPACKRPCProtocol._parse_request items
        else
          .error (.protocolError ⟨-32600, "Invalid request", request_id⟩)
      else if (items.getD 0 Value.nil).pyEqInt 2 then
        if items.length == 3 then
          MSGPACKRPCProtocol._parse_notification items
        else
          .error (.protocolError ⟨-32600, "Invalid request", Value.nil⟩)
      else
        .error (.protocolError ⟨-32600, "Invalid request", Value.nil⟩)
    | _ => .error (.protocolError ⟨-32600, "Invalid request", Value.nil⟩)

/-- Mirror of the compound test on line 326–328 of the source: the error
element of a reply is a "typed" `[code, message]` pair when it is a list
of length 2 whose first element is an `int` instance and whose second is
a `str`. -/
def isTypedErrorPair (v : Value) : Bool :=
  match v with
  | .list [c, m] => c.pyIsInt && m.isStr
  | _ => false

/-- C4: when the unpack primitive cannot decode the bytes (modelled by the
`none` outcome), `parse_request` raises exactly `MSGPACKRPCParseError`
with code `-32700` — the raw decode exception never propagates and no
other error kind is produced. -/
theorem claim4_parse_error_on_undecodable :
    MSGPACKRPCProtocol.parse_request none =
      .error (.protocolError ⟨-32700, "Parse error", Value.nil⟩) := rfl

/-- C1 (failing input): `parse_reply` on bytes that decode to the bare
integer `5` (the one-byte input `0x05`) does not raise
`InvalidReplyError`: `len(rep)` is evaluated before any type check, so a
raw `TypeError` propagates, contradicting the claim (and the function's
own documented contract, which names only `InvalidReplyError`). -/
theorem claim1_parse_reply_raw_typeerror :
    MSGPACKRPCProtocol.parse_reply (some (.int 5)) =
      .error (.typeError "object has no len()") := rfl

/-- C2 (failing input): decoding the notification array `[2, "ping", nil]`
raises `MSGPACKRPCInvalidParamsError` whose `request_id` is the *method
name* `"ping"` (the source passes `request_id=req[1]`, but in a
notification `req[1]` is the method), so `error_respond` on that error
yields a response whose `unique_id` is `"ping"`, not `none` — a reply
would be correlated to a notification. -/
theorem claim2_notification_error_carries_id :
    MSGPACKRPCProtocol.parse_request (some (.list [.int 2, .str "ping", .nil])) =
      .error (.protocolError ⟨-32602, "Invalid params", .str "ping"⟩)
    ∧ (FixedError.error_respond ⟨-32602, "Invalid params", .str "ping"⟩).unique_id =
      .str "ping"
    ∧ Value.isNil (.str "ping") = false :=
  ⟨rfl, rfl, rfl⟩

/-- C7: for every decoded 4-element reply array whose error element and
result element are both non-null, `parse_reply` raises
`InvalidReplyError` (whichever of the tag / id / exclusivity checks fires
first, the raised exception is always an `InvalidReplyError`). -/
theorem claim7_both_error_and_result (a b e r : Value)
    (he : e.isNil = false) (hr : r.isNil = false) :
    isInvalidReplyOutcome
      (MSGPACKRPCProtocol.parse_reply (some (.list [a, b, e, r]))) = true := by
  cases h1 : a.pyEqInt 1 <;> cases h2 : b.pyIsInt <;>
    simp [MSGPACKRPCProtocol.parse_reply, Value.pyLen, Value.pyIndex, h1, h2, he, hr,
      isInvalidReplyOutcome]

/-- Witness for C7 at the concrete reply array `[1, 7, 1, 2]`. -/
theorem claim7_both_error_and_result_witness :
    isInvalidReplyOutcome
      (MSGPACKRPCProtocol.parse_reply
        (some (.list [.int 1, .int 7, .int 1, .int 2]))) = true :=
  claim7_both_error_and_result (.int 1) (.int 7) (.int 1) (.int 2) rfl rfl

/-- C5: decode/encode asymmetry for params.  Parsing a decoded call array
`[0, id, method, params]` whose params element is not a sequence (null or
any other non-list value) raises `MSGPACKRPCInvalidParamsError` with code
`-32602` (it does not default to empty), while `create_request` called
with no args produces a request whose `args` is the empty sequence, never
null. -/
theorem claim5_params_asymmetry (i : Int) (m : String) (p : Value)
    (hp : p.isList = false) :
    MSGPACKRPCProtocol.parse_request (some (.list [.int 0, .int i, .str m, p])) =
      .error (.protocolError ⟨-32602, "Invalid params", .int i⟩)
    ∧ ∀ st : MSGPACKRPCProtocol,
        (st.create_request m none [] false).map (fun q => q.1.args) =
          .ok (some []) := by
  constructor
  · cases p <;> first
      | rfl
      | simp [Value.isList] at hp
  · intro st
    rfl

/-- Witness for C5 at `id = 7`, method `"f"`, params `nil`, and a fresh
protocol instance. -/
theorem claim5_params_asymmetry_witness :
    MSGPACKRPCProtocol.parse_request
        (some (.list [.int 0, .int 7, .str "f", .nil])) =
      .error (.protocolError ⟨-32602, "Invalid params", .int 7⟩)
    ∧ ((MSGPACKRPCProtocol.mk 0).create_request "f" none [] false).map
        (fun q => q.1.args) = .ok (some []) :=
  ⟨(claim5_params_asymmetry 7 "f" .nil rfl).1,
   (claim5_params_asymmetry 7 "f" .nil rfl).2 ⟨0⟩⟩

/-- C9: serialization shapes.  A call request (`one_way = false`, id
assigned) always serializes to the 4-element array `[0, id, method,
args]`; a notification (`one_way = true`) always serializes to the
3-element array `[2, method, args]`; in both shapes the args position
holds a sequence — the `args` attribute defaulted to the empty list when
unset — never null. -/
theorem claim9_serialize_shapes (r : MSGPACKRPCRequest) :
    (∀ i : Value, r.one_way = false → r.unique_id = some i →
      r._to_list = .list [.int 0, i, .str r.method, .list (r.args.getD [])])
    ∧ (r.one_way = true →
      r._to_list = .list [.int 2, .str r.method, .list (r.args.getD [])]) := by
  obtain ⟨ow, uid, m, a⟩ := r
  constructor
  · intro i h1 h2
    subst h1
    subst h2
    rfl
  · intro h
    subst h
    rfl

/-- Witness for C9: a call request with id 5 and unset args, and a
notification with one argument. -/
theorem claim9_serialize_shapes_witness :
    (MSGPACKRPCRequest.mk false (some (.int 5)) "m" none)._to_list =
      .list [.int 0, .int 5, .str "m", .list []]
    ∧ (MSGPACKRPCRequest.mk true none "n" (some [.int 3]))._to_list =
      .list [.int 2, .str "n", .list [.int 3]] :=
  ⟨(claim9_serialize_shapes ⟨false, some (.int 5), "m", none⟩).1 (.int 5) rfl rfl,
   (claim9_serialize_shapes ⟨true, none, "n", some [.int 3]⟩).2 rfl⟩

/-- C10: `error_respond` returns `none` whenever the request's
`unique_id` is falsy — including the integer `0` — and `parse_request`
accepts the integer id `0` for a call, so a parsed call request with id
`0` can never produce an error response, even though it is not one-way
and has an id. -/
theorem claim10_id_zero_no_error_response (m : String) (params : List Value) :
    (∀ (r : MSGPACKRPCRequest) (e : ErrArg),
      pyTruthyOpt r.unique_id = false → r.error_respond e = none)
    ∧ MSGPACKRPCProtocol.parse_request
        (some (.list [.int 0, .int 0, .str m, .list params])) =
        .ok ⟨false, some (.int 0), m, some params⟩
    ∧ ∀ e : ErrArg,
        (MSGPACKRPCRequest.mk false (some (.int 0)) m (some params)).error_respond e =
          none := by
  refine ⟨?_, rfl, ?_⟩
  · intro r e h
    simp [MSGPACKRPCRequest.error_respond, h]
  · intro e
    rfl

/-- Witness for C10 at method `"f"`, no params, and a string error. -/
theorem claim10_id_zero_no_error_response_witness :
    (MSGPACKRPCRequest.mk true none "g" none).error_respond (.strMessage "x") = none
    ∧ MSGPACKRPCProtocol.parse_request
        (some (.list [.int 0, .int 0, .str "f", .list []])) =
        .ok ⟨false, some (.int 0), "f", some []⟩
    ∧ (MSGPACKRPCRequest.mk false (some (.int 0)) "f" (some [])).error_respond
        (.strMessage "x") = none :=
  ⟨(claim10_id_zero_no_error_response "f" []).1 ⟨true, none, "g", none⟩
      (.strMessage "x") rfl,
   (claim10_id_zero_no_error_response "f" []).2.1,
   (claim10_id_zero_no_error_response "f" []).2.2 (.strMessage "x")⟩

/-- C6: for a well-formed 4-element reply `[1, id, error, result]` with an
integer id and at most one of error/result non-null, `parse_reply`
returns a `SuccessResponse` with the result when error is null; a typed
`ErrorResponse` (code, message) when error is a 2-element sequence of an
int-instance code and a string message — the code is quantified over
*every* value satisfying Python's `isinstance(code, int)`, so boolean
codes are covered too, stored via `int(code)` (`pyToInt`); and otherwise
(error non-null and not such a pair) an `ErrorResponse` holding the raw
error value with code `none` (tolerant fallback).  The three parts cover
the whole domain: error null, error a typed pair, error neither.  In all
cases `unique_id` is taken from the id element. -/
theorem claim6_parse_reply_branches (i : Int) (e r : Value) :
    (MSGPACKRPCProtocol.parse_reply (some (.list [.int 1, .int i, .nil, r])) =
      .ok (.success (.int i) r))
    ∧ (∀ (c : Value) (m : String), c.pyIsInt = true →
        MSGPACKRPCProtocol.parse_reply
          (some (.list [.int 1, .int i, .list [c, .str m], .nil])) =
          .ok (.errorResponse (.int i) (.str m) (some c.pyToInt)))
    ∧ (e.isNil = false → isTypedErrorPair e = false →
        MSGPACKRPCProtocol.parse_reply (some (.list [.int 1, .int i, e, .nil])) =
          .ok (.errorResponse (.int i) e none)) := by
  refine ⟨rfl, ?_, ?_⟩
  · intro c m hc
    cases c with
    | int n => rfl
    | bool b => rfl
    | nil => simp [Value.pyIsInt] at hc
    | str s => simp [Value.pyIsInt] at hc
    | bin bs => simp [Value.pyIsInt] at hc
    | list l => simp [Value.pyIsInt] at hc
  intro h1 h2
  cases e with
  | nil => simp [Value.isNil] at h1
  | bool b => rfl
  | int n => rfl
  | str s => rfl
  | bin bs => rfl
  | list l =>
    cases l with
    | nil => rfl
    | cons a t =>
      cases t with
      | nil => rfl
      | cons b t2 =>
        cases t2 with
        | cons c t3 => rfl
        | nil =>
          simp only [isTypedErrorPair] at h2
          have hi : (Value.int i).pyIsInt = true := rfl
          have h1e : (Value.int 1).pyEqInt 1 = true := rfl
          cases hpa : a.pyIsInt with
          | false =>
            simp [MSGPACKRPCProtocol.parse_reply, Value.pyLen, Value.pyIndex,
              Value.isNil, hi, h1e, hpa]
          | true =>
            cases hsb : b.isStr with
            | false =>
              simp [MSGPACKRPCProtocol.parse_reply, Value.pyLen, Value.pyIndex,
                Value.isNil, hi, h1e, hpa, hsb]
            | true =>
              rw [hpa, hsb] at h2
              simp at h2

/-- Witness for C6: the spec's two concrete examples, a typed pair with
a boolean code (stored as `int(True) = 1`), and a tolerant fallback at
the raw error value `"bad"`. -/
theorem claim6_parse_reply_branches_witness :
    MSGPACKRPCProtocol.parse_reply (some (.list [.int 1, .int 7, .nil, .str "ok"])) =
      .ok (.success (.int 7) (.str "ok"))
    ∧ MSGPACKRPCProtocol.parse_reply
        (some (.list [.int 1, .int 7,
          .list [.int (-32601), .str "no such method"], .nil])) =
      .ok (.errorResponse (.int 7) (.str "no such method") (some (-32601)))
    ∧ MSGPACKRPCProtocol.parse_reply
        (some (.list [.int 1, .int 7, .list [.bool true, .str "m"], .nil])) =
      .ok (.errorResponse (.int 7) (.str "m") (some 1))
    ∧ MSGPACKRPCProtocol.parse_reply (some (.list [.int 1, .int 7, .str "bad", .nil])) =
      .ok (.errorResponse (.int 7) (.str "bad") none) :=
  ⟨(claim6_parse_reply_branches 7 (.str "bad") (.str "ok")).1,
   (claim6_parse_reply_branches 7 (.str "bad") (.str "ok")).2.1
     (.int (-32601)) "no such method" rfl,
   (claim6_parse_reply_branches 7 (.str "bad") (.str "ok")).2.1
     (.bool true) "m" rfl,
   (claim6_parse_reply_branches 7 (.str "bad") (.str "ok")).2.2 rfl rfl⟩

/-- C3: round trip.  A request built by `create_request` (for any method,
argument list and `one_way` flag), once serialized to its wire array and
parsed back by `parse_request`, reconstructs the very same request — in
particular the same method, the same args and the same `one_way` flag.
(The external pack/unpack primitive is assumed inverse, so the round trip
is stated on the wire array `_to_list` that `serialize` packs.) -/
theorem claim3_round_trip (st : MSGPACKRPCProtocol) (m : String)
    (args : List Value) (ow : Bool) (req : MSGPACKRPCRequest)
    (st2 : MSGPACKRPCProtocol)
    (h : st.create_request m (some args) [] ow = .ok (req, st2)) :
    MSGPACKRPCProtocol.parse_request (some req._to_list) = .ok req
    ∧ req.method = m ∧ req.args = some args ∧ req.one_way = ow := by
  cases ow with
  | false =>
    have e : st.create_request m (some args) [] false =
        .ok (⟨false, some (.int (st._id_counter + 1)), m, some args⟩,
          ⟨st._id_counter + 1⟩) := rfl
    rw [e] at h
    injection h with h1
    injection h1 with hreq hst
    subst hreq
    exact ⟨rfl, rfl, rfl, rfl⟩
  | true =>
    have e : st.create_request m (some args) [] true =
        .ok (⟨true, none, m, some args⟩, st) := rfl
    rw [e] at h
    injection h with h1
    injection h1 with hreq hst
    subst hreq
    exact ⟨rfl, rfl, rfl, rfl⟩

/-- Witness for C3: a call request created on a fresh instance (id 1) and
a notification, both round-tripping. -/
theorem claim3_round_trip_witness :
    (MSGPACKRPCProtocol.parse_request
        (some (MSGPACKRPCRequest.mk false (some (.int 1)) "m" (some [.int 4]))._to_list) =
      .ok ⟨false, some (.int 1), "m", some [.int 4]⟩
    ∧ (MSGPACKRPCRequest.mk false (some (.int 1)) "m" (some [.int 4])).method = "m"
    ∧ (MSGPACKRPCRequest.mk false (some (.int 1)) "m" (some [.int 4])).args =
        some [.int 4]
    ∧ (MSGPACKRPCRequest.mk false (some (.int 1)) "m" (some [.int 4])).one_way = false)
    ∧ (MSGPACKRPCProtocol.parse_request
        (some (MSGPACKRPCRequest.mk true none "n" (some []))._to_list) =
      .ok ⟨true, none, "n", some []⟩
    ∧ (MSGPACKRPCRequest.mk true none "n" (some [])).method = "n"
    ∧ (MSGPACKRPCRequest.mk true none "n" (some [])).args = some []
    ∧ (MSGPACKRPCRequest.mk true none "n" (some [])).one_way = true) :=
  ⟨claim3_round_trip ⟨0⟩ "m" [.int 4] false ⟨false, some (.int 1), "m", some [.int 4]⟩
      ⟨1⟩ rfl,
   claim3_round_trip ⟨0⟩ "n" [] true ⟨true, none, "n", some []⟩ ⟨0⟩ rfl⟩

/-- A sequence of `create_request` calls on one facade instance (each
spec is a method, optional args, and the `one_way` flag; `kwargs` is left
empty, so no call raises), threading the instance state through.  The
(unreachable) error branch yields the empty list. -/
def createMany : MSGPACKRPCProtocol → List (String × Option (List Value) × Bool) →
    List MSGPACKRPCRequest
  | _, [] => []
  | p, s :: rest =>
    match p.create_request s.1 s.2.1 [] s.2.2 with
    | .ok rp => rp.1 :: createMany rp.2 rest
    | .error _ => []

/-- The correlation ids of the non-one-way requests of a batch, in call
order. -/
def callIds (l : List MSGPACKRPCRequest) : List Value :=
  l.filterMap fun r => if r.one_way then none else r.unique_id

/-- How many of the specs are non-one-way calls. -/
def numCalls (specs : List (String × Option (List Value) × Bool)) : Nat :=
  (specs.filter fun s => !s.2.2).length

/-- The id sequence `[c+1, c+2, ..., c+n]`. -/
def idRange (c : Int) : Nat → List Value
  | 0 => []
  | n + 1 => Value.int (c + 1) :: idRange (c + 1) n

/-- Generalized id-allocation invariant: starting from counter `c`, the
ids handed to the non-one-way requests are exactly `c+1, ..., c+K` where
`K` counts the non-one-way specs. -/
theorem createMany_callIds
    (specs : List (String × Option (List Value) × Bool)) :
    ∀ c : Int, callIds (createMany ⟨c⟩ specs) = idRange c (numCalls specs) := by
  induction specs with
  | nil => intro c; rfl
  | cons s rest ih =>
    intro c
    obtain ⟨m, a, ow⟩ := s
    cases ow with
    | true =>
      show callIds (⟨true, none, m, some (a.getD [])⟩ :: createMany ⟨c⟩ rest) =
        idRange c (numCalls (((m, a, true)) :: rest))
      have h1 : callIds (⟨true, none, m, some (a.getD [])⟩ :: createMany ⟨c⟩ rest) =
          callIds (createMany ⟨c⟩ rest) := by
        simp [callIds, List.filterMap_cons]
      have h2 : numCalls (((m, a, true)) :: rest) = numCalls rest := by
        simp [numCalls]
      rw [h1, h2, ih c]
    | false =>
      show callIds (⟨false, some (.int (c + 1)), m, some (a.getD [])⟩ ::
          createMany ⟨c + 1⟩ rest) =
        idRange c (numCalls (((m, a, false)) :: rest))
      have hc : numCalls (((m, a, false)) :: rest) = numCalls rest + 1 := by
        simp [numCalls]
      rw [hc]
      simp [callIds, List.filterMap_cons, idRange]
      exact ih (c + 1)

/-- Generalized one-way invariant: no request of a batch that is one-way
ever carries an id. -/
theorem createMany_one_way
    (specs : List (String × Option (List Value) × Bool)) :
    ∀ c : Int, ∀ r ∈ createMany ⟨c⟩ specs, r.one_way = true → r.unique_id = none := by
  induction specs with
  | nil => intro c r hr; simp [createMany] at hr
  | cons s rest ih =>
    intro c r hr how
    obtain ⟨m, a, ow⟩ := s
    cases ow with
    | true =>
      have hr' : r ∈ (⟨true, none, m, some (a.getD [])⟩ : MSGPACKRPCRequest) ::
          createMany ⟨c⟩ rest := hr
      rcases List.mem_cons.mp hr' with h | h
      · rw [h]
      · exact ih c r h how
    | false =>
      have hr' : r ∈ (⟨false, some (.int (c + 1)), m, some (a.getD [])⟩ :
          MSGPACKRPCRequest) :: createMany ⟨c + 1⟩ rest := hr
      rcases List.mem_cons.mp hr' with h | h
      · rw [h] at how; simp at how
      · exact ih (c + 1) r h how

/-- The id sequence `idRange c n` is strictly increasing under the
integer-value projection. -/
theorem idRange_chain (n : Nat) : ∀ c : Int,
    List.Chain' (fun a b => a < b) ((idRange c n).map Value.pyToInt) := by
  induction n with
  | zero => intro c; simp [idRange]
  | succ k ih =>
    intro c
    cases k with
    | zero => simp [idRange]
    | succ j =>
      have : (idRange c (j + 2)).map Value.pyToInt =
          (c + 1) :: (idRange (c + 1) (j + 1)).map Value.pyToInt := by
        simp [idRange, Value.pyToInt]
      rw [this]
      rcases hm : (idRange (c + 1) (j + 1)).map Value.pyToInt with _ | ⟨x, xs⟩
      · simp [idRange, Value.pyToInt] at hm
      · have hx : x = c + 2 := by
          simp [idRange, Value.pyToInt] at hm
          omega
        refine List.chain'_cons.mpr ⟨by omega, ?_⟩
        rw [← hm]
        exact ih (c + 1)

/-- C8: on a fresh facade instance, any sequence of `create_request`
calls hands the non-one-way requests the ids `1, 2, ..., N` in order —
strictly increasing with no repeats, starting at `1` — while one-way
requests never receive an id and never consume one (interleaved one-way
calls do not shift the id sequence). -/
theorem claim8_id_allocation
    (specs : List (String × Option (List Value) × Bool)) :
    callIds (createMany ⟨0⟩ specs) = idRange 0 (numCalls specs)
    ∧ List.Chain' (fun a b => a < b)
        ((callIds (createMany ⟨0⟩ specs)).map Value.pyToInt)
    ∧ ∀ r ∈ createMany ⟨0⟩ specs, r.one_way = true → r.unique_id = none := by
  refine ⟨createMany_callIds specs 0, ?_, createMany_one_way specs 0⟩
  rw [createMany_callIds specs 0]
  exact idRange_chain _ 0

/-- Witness for C8: a call, an interleaved notification, then another
call — ids `1` then `2`, the notification id-less. -/
theorem claim8_id_allocation_witness :
    callIds (createMany ⟨0⟩ [("a", none, false), ("b", none, true), ("c", none, false)]) =
      idRange 0 (numCalls [("a", none, false), ("b", none, true), ("c", none, false)])
    ∧ (MSGPACKRPCRequest.mk true none "b" (some [])).unique_id = none :=
  ⟨(claim8_id_allocation [("a", none, false), ("b", none, true), ("c", none, false)]).1,
   (claim8_id_allocation [("a", none, false), ("b", none, true), ("c", none, false)]).2.2
     ⟨true, none, "b", some []⟩
     (show _ ∈ ([⟨false, some (.int 1), "a", some []⟩, ⟨true, none, "b", some []⟩,
        ⟨false, some (.int 2), "c", some []⟩] : List MSGPACKRPCRequest) from
       List.mem_cons_of_mem _ (List.mem_cons_self _ _))
     rfl⟩
